import Mathlib

/-!
Verification development for the medical-insights backend core:
interview session lifecycle (`InterviewSessionService`), the question agent
(`PatientInterviewAgent.next_questions`), the advisor agent
(`MedicalAdvisorAgent.advise`), the retrieval client (`VectorDBClient.query`)
and the orchestrator/router glue.  Python code is embedded shallowly:
dictionaries become association lists, in-place mutation becomes explicit
state passing, exceptions become `Except`, and wall-clock timestamps become
a `Nat` logical clock (the code only ever formats them into text).
-/

set_option autoImplicit false

namespace Med

/-! ## Python string primitives -/

/-- Substring occurrence on character lists: `needleLeads n h` is true when
`n` is an initial run of `h` (empty `n` always matches). -/
def needleLeads : List Char → List Char → Bool
  | [], _ => true
  | _ :: _, [] => false
  | a :: as, b :: bs => a == b && needleLeads as bs

/-- `subInList n h`: `n` occurs contiguously somewhere in `h`. -/
def subInList (n : List Char) : List Char → Bool
  | [] => n.isEmpty
  | c :: t => needleLeads n (c :: t) || subInList n t

/-- Model of the Python membership test `needle in hay` on strings. -/
def pyIn (needle hay : String) : Bool :=
  subInList needle.data hay.data

/-- ASCII lower-casing of one character. -/
def charLower (c : Char) : Char :=
  if 65 ≤ c.toNat ∧ c.toNat ≤ 90 then Char.ofNat (c.toNat + 32) else c

/-- Model of Python `str.lower()` (ASCII-relevant part used by the code). -/
def pyLower (s : String) : String :=
  String.mk (s.data.map charLower)

/-! ## Turns and the question agent
(`src/api/services/agents.py`, `PatientInterviewAgent`) -/

/-- One transcript turn.  The source stores `role`, `content` and an ISO
timestamp string; the timestamp is modelled as the logical clock value that
produced it. -/
structure Turn where
  role : String
  content : String
  timestamp : Nat
  deriving Repr, DecidableEq

/-- Canned question for the `duration` topic (agents.py line 23). -/
def durationQuestion : String :=
  "How long have you been experiencing this issue?"

/-- Canned question for the `severity` topic (agents.py line 25). -/
def severityQuestion : String :=
  "How severe are your symptoms on a scale from 1 to 10?"

/-- Canned question for the `triggers` topic (agents.py line 27). -/
def triggersQuestion : String :=
  "Have you noticed any triggers or patterns that make it better or worse?"

/-- Generic fallback question (agents.py line 31). -/
def fallbackQuestion : String :=
  "Do you have any other symptoms or concerns you\x27d like to share?"

/-- Complaint-specific probe (agents.py line 29). -/
def complaintQuestion (chief_complaint : String) : String :=
  "Can you describe more details about: " ++ chief_complaint ++ "?"

/-- The haystack `asked`: space-joined lower-cased contents of the
agent-role turns (agents.py line 20). -/
def askedHaystack (transcript : List Turn) : String :=
  String.intercalate " "
    ((transcript.filter (fun t => t.role == "agent")).map (fun t => pyLower t.content))

/-- `PatientInterviewAgent.next_questions` (agents.py lines 17-32). -/
def next_questions (chief_complaint : String) (transcript : List Turn) : List String :=
  let asked := askedHaystack transcript
  let qs : List String :=
    (if pyIn "duration" asked = false then [durationQuestion] else []) ++
    (if pyIn "severity" asked = false then [severityQuestion] else []) ++
    (if pyIn "triggers" asked = false then [triggersQuestion] else []) ++
    (if chief_complaint.isEmpty = false then [complaintQuestion chief_complaint] else [])
  if qs.isEmpty then [fallbackQuestion] else qs

example : next_questions "" [] = [durationQuestion, severityQuestion, triggersQuestion] := by
  decide

example :
    next_questions "" [⟨"agent", durationQuestion, 0⟩, ⟨"agent", severityQuestion, 1⟩,
      ⟨"agent", triggersQuestion, 2⟩] = [durationQuestion, severityQuestion] := by
  decide

/-! ## Interview sessions and the session store
(`src/api/services/interview_session_service.py`) -/

/-- `InterviewSession` (interview_session_service.py lines 11-38).
`context` is an opaque key-value bag, modelled as an association list of
strings; `created_at` / `updated_at` are logical clock values. -/
structure InterviewSession where
  patient_id : String
  chief_complaint : String
  context : List (String × String)
  created_at : Nat
  updated_at : Nat
  completed : Bool
  transcript : List Turn
  deriving Repr, DecidableEq

/-- `InterviewSession.__init__`: `chief_complaint = (cc or "").strip()`,
`context = context or {}`, empty transcript, `completed = False`. -/
def newSession (patient_id : String) (chief_complaint : Option String)
    (context : Option (List (String × String))) (now : Nat) : InterviewSession :=
  { patient_id := patient_id
    chief_complaint := (chief_complaint.getD "").trim
    context := context.getD []
    created_at := now
    updated_at := now
    completed := false
    transcript := [] }

/-- `InterviewSession.append_turn` (lines 29-38): append a turn, refresh
`updated_at`. -/
def append_turn (s : InterviewSession) (role content : String) (now : Nat) : InterviewSession :=
  { s with transcript := s.transcript ++ [⟨role, content, now⟩], updated_at := now }

/-- The `for q in questions: session.append_turn("agent", q)` loops of
`start_session`/`submit_answer`, threading the logical clock. -/
def appendTurns (role : String) : InterviewSession → List String → Nat → InterviewSession × Nat
  | s, [], clk => (s, clk)
  | s, c :: cs, clk => appendTurns role (append_turn s role c clk) cs (clk + 1)

/-- `InterviewSession.to_text` (lines 40-57): header block plus one line per
turn. -/
def to_text (s : InterviewSession) : String :=
  String.intercalate "\n"
    (["Patient Interview Transcript",
      "Patient ID: " ++ s.patient_id,
      "Chief Complaint: " ++ s.chief_complaint,
      "Created: " ++ toString s.created_at ++ "Z",
      "Updated: " ++ toString s.updated_at ++ "Z",
      String.mk (List.replicate 60 (Char.ofNat 45))] ++
      s.transcript.map (fun t =>
        "[" ++ toString t.timestamp ++ "] " ++ t.role.toUpper ++ ": " ++ t.content))

/-- The in-memory `self._sessions` dict, as an insertion-ordered
association list, plus the logical clock standing in for `utcnow`. -/
structure SessionStore where
  sessions : List (String × InterviewSession)
  clock : Nat
  deriving Repr

/-- `self._sessions.get(pid)`: first entry with the key. -/
def lookupS : List (String × InterviewSession) → String → Option InterviewSession
  | [], _ => none
  | (k, v) :: t, pid => if k == pid then some v else lookupS t pid

/-- `self._sessions[pid] = session`: replace the first entry with the key,
or append a fresh one (Python dicts keep insertion order). -/
def insertS : List (String × InterviewSession) → String → InterviewSession →
    List (String × InterviewSession)
  | [], pid, v => [(pid, v)]
  | (k, w) :: t, pid, v => if k == pid then (pid, v) :: t else (k, w) :: insertS t pid v

/-- `del self._sessions[pid]`. -/
def eraseS (l : List (String × InterviewSession)) (pid : String) :
    List (String × InterviewSession) :=
  l.filter (fun p => !(p.1 == pid))

/-- Number of entries stored under a key (a real dict always has 0 or 1). -/
def countKey (l : List (String × InterviewSession)) (pid : String) : Nat :=
  (l.filter (fun p => p.1 == pid)).length

/-- Response of `start_session`/`submit_answer`: the
`{patient_id, completed, questions, transcript}` dict. -/
structure SessionResponse where
  patient_id : String
  completed : Bool
  questions : List String
  transcript : List Turn
  deriving Repr, DecidableEq

/-- Result of `start_session`: the new store and the response dict. -/
structure StartOutcome where
  store : SessionStore
  response : SessionResponse
  deriving Repr

/-- The session selection at the top of `start_session` (lines 76-83):
reuse the stored session when it exists and is not completed, otherwise
construct a fresh one. -/
def start_pick (st : SessionStore) (patient_id : String)
    (chief_complaint : Option String) (context : Option (List (String × String))) :
    InterviewSession :=
  match lookupS st.sessions patient_id with
  | some s =>
    if s.completed = false then s
    else newSession patient_id chief_complaint context st.clock
  | none => newSession patient_id chief_complaint context st.clock

/-- `InterviewSessionService.start_session` (lines 74-96): reuse a live
session, else create one; generate questions from the session's
chief complaint and current transcript and append them as agent turns. -/
def start_session (st : SessionStore) (patient_id : String)
    (chief_complaint : Option String) (context : Option (List (String × String))) :
    StartOutcome :=
  let session := start_pick st patient_id chief_complaint context
  let questions := next_questions session.chief_complaint session.transcript
  let sc := appendTurns "agent" session questions st.clock
  { store := { sessions := insertS st.sessions patient_id sc.1, clock := sc.2 }
    response := { patient_id := patient_id, completed := sc.1.completed,
                  questions := questions, transcript := sc.1.transcript } }

/-- Result of `submit_answer`: `ValueError` is modelled as `Except.error`
on the message (the router maps `ValueError` to HTTP 404). -/
structure AnswerOutcome where
  result : Except String SessionResponse
  store : SessionStore
  deriving Repr

/-- `InterviewSessionService.submit_answer` (lines 99-122): require an
active (non-completed) session, append the patient turn, generate and
append follow-up agent turns. -/
def submit_answer (st : SessionStore) (patient_id : String) (answer : String) :
    AnswerOutcome :=
  match lookupS st.sessions patient_id with
  | none => { result := .error "No active session for this patient.", store := st }
  | some s =>
    if s.completed then
      { result := .error "No active session for this patient.", store := st }
    else
      let s1 := append_turn s "patient" answer st.clock
      let questions := next_questions s1.chief_complaint s1.transcript
      let sc := appendTurns "agent" s1 questions (st.clock + 1)
      { result := .ok { patient_id := patient_id, completed := sc.1.completed,
                        questions := questions, transcript := sc.1.transcript }
        store := { sessions := insertS st.sessions patient_id sc.1, clock := sc.2 } }

/-- The `{"status", "detail", "patient_id"}` dict returned by `end_session`. -/
structure EndResponse where
  status : String
  detail : String
  patient_id : String
  deriving Repr, DecidableEq

/-- Result of `end_session`: outcome, post-state, and the arguments of the
`interview_files_repo.write_text` calls performed (for observing whether
persistence was invoked). -/
structure EndOutcome where
  result : Except String EndResponse
  store : SessionStore
  writes : List (String × String)
  deriving Repr

/-- `session.completed = True` (line 134). -/
def markCompleted (s : InterviewSession) : InterviewSession :=
  { s with completed := true }

/-- `InterviewSessionService.end_session` (lines 125-143).  The transcript
persistence collaborator `interview_files_repo.write_text` is the
`persist` parameter: it returns the relative path, or raises
(`Except.error`).  Mutations made before a raise (the `completed` flag)
survive in the post-state, as they do on the in-place Python object. -/
def end_session (persist : String → String → Except String String)
    (st : SessionStore) (patient_id : String) : EndOutcome :=
  match lookupS st.sessions patient_id with
  | none => { result := .error "No session found for this patient.", store := st, writes := [] }
  | some s =>
    let s1 := markCompleted s
    let text := to_text s1
    let st1 : SessionStore := { st with sessions := insertS st.sessions patient_id s1 }
    match persist patient_id text with
    | .error e => { result := .error e, store := st1, writes := [(patient_id, text)] }
    | .ok rel =>
      { result := .ok { status := "ok", detail := "transcript_written:" ++ rel,
                        patient_id := patient_id }
        store := { st1 with sessions := eraseS st1.sessions patient_id }
        writes := [(patient_id, text)] }

/-- The empty store. -/
def emptyStore : SessionStore := { sessions := [], clock := 0 }

/-- A persistence collaborator that always succeeds. -/
def persistOk : String → String → Except String String :=
  fun pid _ => .ok ("Interview/" ++ pid ++ ".txt")

/-! ## JSON values and Python `float()` conversion -/

/-- JSON values, as produced by `resp.json()`. -/
inductive JVal where
  | jnull : JVal
  | jbool : Bool → JVal
  | jnum : ℚ → JVal
  | jstr : String → JVal
  | jarr : List JVal → JVal
  | jobj : List (String × JVal) → JVal
  deriving Repr

/-- Value of a digit run (empty run allowed, value 0). -/
def digitsVal (l : List Char) : Nat :=
  l.foldl (fun acc c => acc * 10 + (c.toNat - 48)) 0

/-- Model of Python `float(s)` on strings: optional sign, decimal digits
with an optional fractional part (accepting forms like `1`, `1.`, `.5`,
`1.5`); exponent, `inf`/`nan` and underscore forms are not modelled (no
claim evaluates them). Returns `none` when Python raises `ValueError`. -/
def parsePyFloat? (s : String) : Option ℚ :=
  let t := s.trim
  let body : List Char :=
    match t.data with
    | c :: r => if c == Char.ofNat 45 ∨ c == Char.ofNat 43 then r else t.data
    | [] => []
  let sgn : ℚ := match t.data with
    | c :: _ => if c == Char.ofNat 45 then -1 else 1
    | [] => 1
  let ip := body.takeWhile (fun c => c.isDigit)
  let rest := body.dropWhile (fun c => c.isDigit)
  match rest with
  | [] =>
    if ip.isEmpty then none
    else some (sgn * (digitsVal ip : ℚ))
  | c :: frac =>
    if c == Char.ofNat 46 ∧ frac.all (fun d => d.isDigit) ∧ (ip.isEmpty ∧ frac.isEmpty) = false then
      some (sgn * ((digitsVal ip : ℚ) + (digitsVal frac : ℚ) / ((10 : ℚ) ^ frac.length)))
    else none

/-- Model of the Python builtin `float(·)` on JSON-decoded values:
numbers and booleans convert, numeric strings parse, everything else
raises (`TypeError` / `ValueError`). -/
def pyFloat : JVal → Except String ℚ
  | .jnum q => .ok q
  | .jbool b => .ok (if b then 1 else 0)
  | .jstr s =>
    match parsePyFloat? s with
    | some q => .ok q
    | none => .error ("ValueError: could not convert string to float: " ++ s)
  | .jnull => .error "TypeError: float() argument must be a string or a real number, not NoneType"
  | .jarr _ => .error "TypeError: float() argument must be a string or a real number, not list"
  | .jobj _ => .error "TypeError: float() argument must be a string or a real number, not dict"

/-! ## Retrieval client (`src/api/services/vector_client.py`) -/

/-- Outcome of the single `httpx` POST in `VectorDBClient.query`:
either the call raised (timeout, connection failure), or a response
arrived with a status code and a body (`none` = not valid JSON, so
`resp.json()` raises). -/
inductive HttpOutcome where
  | raised : HttpOutcome
  | response : Nat → Option JVal → HttpOutcome
  deriving Repr

/-- First value stored under a key in a JSON object, else a default
(`data.get("results", [])`). -/
def jobjGetD : List (String × JVal) → String → JVal → JVal
  | [], _, d => d
  | (k, v) :: t, key, d => if k == key then v else jobjGetD t key d

/-- The request payload `{"query": ..., "top_k": ...}` (line 34). -/
def queryPayload (query : String) (top_k : Nat) : JVal :=
  .jobj [("query", .jstr query), ("top_k", .jnum top_k)]

/-- The `try` block of `VectorDBClient.query` (lines 37-41): POST (may
raise), `raise_for_status` (raises unless 2xx), `resp.json()` (raises on a
malformed body), `data.get("results", [])` (raises `AttributeError` when
the body is not an object). -/
def queryTry (o : HttpOutcome) : Except String JVal :=
  match o with
  | .raised => .error "httpx transport error"
  | .response status body =>
    if (200 ≤ status ∧ status < 300) = false then .error "HTTPStatusError"
    else
      match body with
      | none => .error "JSONDecodeError"
      | some (.jobj fields) => .ok (jobjGetD fields "results" (.jarr []))
      | some _ => .error "AttributeError: get"

/-- `VectorDBClient.query` (lines 31-44): the whole body runs under
`try/except Exception`, any failure yields `[]`. -/
def VectorDBClient.query (query : String) (top_k : Nat) (o : HttpOutcome) : JVal :=
  match queryTry o with
  | .ok v => v
  | .error _ => .jarr []

/-! ## Advisor agent (`src/api/services/agents.py`, `MedicalAdvisorAgent`) -/

/-- One retrieval result, shaped per the backend contract
`{text: string, score: number, source: string}` with each field possibly
absent; the score is kept as a raw JSON value so that out-of-contract
scores (null, strings, ...) are representable. -/
structure Snippet where
  text : Option String
  score : Option JVal
  source : Option String

/-- One advisor suggestion dict. -/
structure Suggestion where
  title : String
  rationale : String
  citations : List String
  confidence : ℚ
  deriving Repr, DecidableEq

/-- `top_k=max(5, max_items * 2)` (agents.py line 45). -/
def adviseTopK (max_items : Nat) : Nat :=
  max 5 (max_items * 2)

/-- `item.get("score", 0.5)` (line 51). -/
def scoreVal (item : Snippet) : JVal :=
  item.score.getD (.jnum (1 / 2))

/-- `float(item.get("score", 0.5))` then `min(max(confidence, 0.0), 1.0)`
(lines 51 and 57). -/
def adviseConfidence (item : Snippet) : Except String ℚ :=
  (pyFloat (scoreVal item)).map (fun c => min (max c 0) 1)

/-- One iteration of the suggestion-building loop (lines 47-59), for the
item at 0-based index `idx`; a raised float-conversion error escapes the
loop. -/
def mkSuggestion (idx : Nat) (item : Snippet) : Except String Suggestion :=
  match adviseConfidence item with
  | .error e => .error e
  | .ok c =>
    .ok { title := "Suggestion #" ++ toString (idx + 1)
          rationale := "Based on retrieved evidence: " ++ (item.text.getD "").take 300 ++ "..."
          citations := [item.source.getD "guideline"]
          confidence := c }

/-- The `for idx, item in enumerate(results[:max_items])` loop: builds
suggestions in order, stopping at the first raised conversion error. -/
def adviseLoop : Nat → List Snippet → Except String (List Suggestion)
  | _, [] => .ok []
  | idx, item :: rest =>
    match mkSuggestion idx item with
    | .error e => .error e
    | .ok s =>
      match adviseLoop (idx + 1) rest with
      | .error e => .error e
      | .ok tail => .ok (s :: tail)

/-- The sentinel suggestion (lines 61-68). -/
def sentinelSuggestion : Suggestion :=
  { title := "No strong evidence found"
    rationale := "The RAG system did not return relevant matches. Consider broadening the query."
    citations := []
    confidence := 1 / 5 }

/-- `MedicalAdvisorAgent.advise` (lines 42-69), with the retrieval call
modelled by its outcome `results`. -/
def advise (results : List Snippet) (max_items : Nat) : Except String (List Suggestion) :=
  match adviseLoop 0 (results.take max_items) with
  | .error e => .error e
  | .ok suggestions => .ok (if suggestions.isEmpty then [sentinelSuggestion] else suggestions)

/-- Does the confidence computation for one snippet succeed?  True for
contract-conforming snippets (absent or numeric score). -/
def scoreOk (item : Snippet) : Bool :=
  match adviseConfidence item with
  | .ok _ => true
  | .error _ => false

/-! ## Orchestrator and the advisor-run routers
(`src/api/services/orchestrator.py`, `src/api/routers/agents.py`) -/

/-- The method names the `class MedicalOrchestrator` body defines
(orchestrator.py lines 10-43): `run_interview_step` and `run_advisor`
only. -/
def orchestratorMethodNames : List String :=
  ["run_interview_step", "run_advisor"]

/-- Python attribute lookup `getattr(orchestrator, name)`: succeeds
exactly on the names the class defines, otherwise raises
`AttributeError`. -/
def orchestratorGetattr (name : String) : Except String String :=
  if orchestratorMethodNames.contains name then .ok name
  else .error ("AttributeError: MedicalOrchestrator object has no attribute " ++ name)

/-- A router response: a JSON body, or an `HTTPException` with a status
code and detail. -/
inductive RouterResponse where
  | ok : JVal → RouterResponse
  | httpError : Nat → String → RouterResponse
  deriving Repr

/-- `agent_advisor_run` (routers/agents.py lines 15-26): 404 when the
interview file is absent; otherwise call
`orchestrator.run_advisor_on_text(...)` inside `try/except Exception`,
mapping any raise to a 500 `Advisor failed` response.  `passThrough`
stands for whatever the method call would return if the attribute lookup
succeeded. -/
def agent_advisor_run (fileExists : Bool) (passThrough : JVal) : RouterResponse :=
  if fileExists = false then .httpError 404 "Interview file not found"
  else
    match orchestratorGetattr "run_advisor_on_text" with
    | .ok _ => .ok passThrough
    | .error e => .httpError 500 ("Advisor failed: " ++ e)

/-! ## Concrete fixtures used by witnesses -/

/-- A concrete live session, for witnesses. -/
def sampleSession : InterviewSession :=
  { patient_id := "p1", chief_complaint := "headache", context := [("lang", "en")],
    created_at := 0, updated_at := 0, completed := false,
    transcript := [⟨"agent", "q", 0⟩] }

/-- A store holding the sample session. -/
def sampleStore : SessionStore :=
  { sessions := [("p1", sampleSession)], clock := 1 }

/-- A persistence collaborator that always raises. -/
def persistFailAlways : String → String → Except String String :=
  fun _ _ => .error "disk full"

/-! ## Claims -/

/-- `if l.isEmpty then [d] else l` never produces the empty list. -/
theorem ifEmptyDefault_ne_nil (l : List String) (d : String) :
    (if l.isEmpty = true then [d] else l) ≠ [] := by
  cases l with
  | nil => simp
  | cons a t => simp

/-- C10: for every chief complaint and transcript, `next_questions`
returns a non-empty list — the generic fallback question guarantees at
least one item, so a caller can never observe the zero-questions
signal. -/
theorem next_questions_nonempty (cc : String) (transcript : List Turn) :
    next_questions cc transcript ≠ [] := by
  unfold next_questions
  dsimp only
  exact ifEmptyDefault_ne_nil _ _

/-- C9 (code evaluated at the failing input): the routers call
`orchestrator.run_advisor_on_text`, but the `MedicalOrchestrator` class
defines no such attribute, so for every would-be advisor result the
`/agents/advisor/run` endpoint answers HTTP 500 `Advisor failed` instead
of the pass-through result the spec describes. -/
theorem advisor_run_endpoint_always_fails (passThrough : JVal) :
    agent_advisor_run true passThrough =
      .httpError 500
        ("Advisor failed: AttributeError: MedicalOrchestrator object has no attribute " ++
          "run_advisor_on_text") ∧
    orchestratorGetattr "run_advisor_on_text" =
      .error ("AttributeError: MedicalOrchestrator object has no attribute " ++
        "run_advisor_on_text") := by
  exact ⟨rfl, rfl⟩

/-- C1 (code evaluated at the failing input): starting a session for
patient `p1` with no chief complaint and then submitting one answer makes
the agent-turn history contain the canned duration question twice and the
canned severity question twice (their topic keywords `duration` and
`severity` do not occur in the question texts), while the triggers
question — whose text does contain its keyword — appears exactly once. -/
theorem duration_and_severity_questions_asked_twice :
    ((lookupS (submit_answer (start_session emptyStore "p1" none none).store
        "p1" "about three days").store.sessions "p1").map
      (fun s =>
        (((s.transcript.filter (fun t => t.role == "agent")).filter
            (fun t => t.content == durationQuestion)).length,
         ((s.transcript.filter (fun t => t.role == "agent")).filter
            (fun t => t.content == severityQuestion)).length,
         ((s.transcript.filter (fun t => t.role == "agent")).filter
            (fun t => t.content == triggersQuestion)).length))) = some (2, 2, 1) := by
  with_unfolding_all rfl

/-- C5: for every query string and `top_k`, on any transport or protocol
failure — the POST raised, a non-2xx status, or a malformed (non-JSON)
body — `VectorDBClient.query` returns the empty result sequence; being a
total function of the outcome, it never propagates the error. -/
theorem query_failure_returns_empty (q : String) (top_k : Nat) (o : HttpOutcome)
    (h : o = .raised ∨
      ∃ st body, o = .response st body ∧ ((200 ≤ st ∧ st < 300) = false ∨ body = none)) :
    VectorDBClient.query q top_k o = .jarr [] := by
  rcases h with h | ⟨st, body, rfl, h⟩
  · subst h; rfl
  · rcases h with h | rfl
    · simp [VectorDBClient.query, queryTry, h]
    · by_cases hs : 200 ≤ st ∧ st < 300 <;>
        simp [VectorDBClient.query, queryTry, hs]

/-- Witness for C5: a timed-out POST yields the empty result list. -/
theorem query_failure_returns_empty_witness :
    VectorDBClient.query "chest pain" 5 .raised = .jarr [] :=
  query_failure_returns_empty "chest pain" 5 .raised (Or.inl rfl)

/-- C8: ending a session for a patient with no session record fails with
the not-found `ValueError` (mapped to HTTP 404 by the router), leaves the
store untouched, and performs no persistence write. -/
theorem end_session_absent_no_write
    (persist : String → String → Except String String)
    (st : SessionStore) (patient_id : String)
    (h : lookupS st.sessions patient_id = none) :
    end_session persist st patient_id =
      { result := .error "No session found for this patient.", store := st, writes := [] } := by
  unfold end_session
  rw [h]

/-- Witness for C8: ending on the empty store fails with not-found and
records no write. -/
theorem end_session_absent_no_write_witness :
    end_session persistOk emptyStore "p1" =
      { result := .error "No session found for this patient.", store := emptyStore,
        writes := [] } :=
  end_session_absent_no_write persistOk emptyStore "p1" rfl

/-- C4 counterexample: a snippet whose score is JSON `null` (a non-numeric
score) makes the confidence computation — and the whole advisor call —
raise a `TypeError` from `float(...)` instead of defaulting to 0.5. -/
theorem confidence_nonnumeric_score_raises :
    adviseConfidence { text := some "t", score := some .jnull, source := some "s" } =
      .error "TypeError: float() argument must be a string or a real number, not NoneType" ∧
    advise [{ text := some "t", score := some .jnull, source := some "s" }] 3 =
      .error "TypeError: float() argument must be a string or a real number, not NoneType" :=
  ⟨rfl, rfl⟩

/-- C4 as amended: the advisor's confidence is 0.5 when the score is
absent, the clamped score when the score is numeric, and whenever the
computation succeeds at all the value lies in [0, 1]; but a non-numeric
score raises instead of defaulting. -/
theorem adviseConfidence_cases (item : Snippet) :
    (item.score = none → adviseConfidence item = .ok (1 / 2)) ∧
    (∀ q, item.score = some (.jnum q) → adviseConfidence item = .ok (min (max q 0) 1)) ∧
    (∀ c, adviseConfidence item = .ok c → 0 ≤ c ∧ c ≤ 1) := by
  refine ⟨?_, ?_, ?_⟩
  · intro h
    simp only [adviseConfidence, scoreVal, h, Option.getD, pyFloat, Except.map]
    norm_num
  · intro q h
    simp only [adviseConfidence, scoreVal, h, Option.getD, pyFloat, Except.map]
  · intro c h
    cases hv : pyFloat (scoreVal item) with
    | error e => simp [adviseConfidence, hv, Except.map] at h
    | ok a =>
      simp only [adviseConfidence, hv, Except.map, Except.ok.injEq] at h
      rw [← h]
      exact ⟨le_min (le_max_right a 0) zero_le_one, min_le_right _ _⟩

/-- Witness for C4 (amended): an absent score defaults to 0.5; an
out-of-range numeric score 5 clamps to 1. -/
theorem adviseConfidence_cases_witness :
    adviseConfidence { text := some "evidence", score := none, source := none } = .ok (1 / 2) ∧
    adviseConfidence { text := none, score := some (.jnum 5), source := none } = .ok 1 := by
  constructor
  · exact (adviseConfidence_cases _).1 rfl
  · have h := (adviseConfidence_cases
      { text := none, score := some (.jnum 5), source := none }).2.1 5 rfl
    rw [h]
    norm_num

/-- Each successful confidence computation makes `mkSuggestion` succeed,
so `adviseLoop` succeeds with one suggestion per input item. -/
theorem adviseLoop_length (l : List Snippet) :
    ∀ idx : Nat, (∀ it ∈ l, scoreOk it = true) →
      ∃ s, adviseLoop idx l = .ok s ∧ s.length = l.length := by
  induction l with
  | nil => exact fun idx _ => ⟨[], rfl, rfl⟩
  | cons a t ih =>
    intro idx h
    have ha : scoreOk a = true := h a (List.mem_cons_self a t)
    obtain ⟨c, hc⟩ : ∃ c, adviseConfidence a = .ok c := by
      cases hac : adviseConfidence a with
      | ok c => exact ⟨c, rfl⟩
      | error e => simp [scoreOk, hac] at ha
    obtain ⟨s, hs, hlen⟩ := ih (idx + 1) (fun it hit => h it (List.mem_cons_of_mem a hit))
    cases hm : mkSuggestion idx a with
    | error e => simp [mkSuggestion, hc] at hm
    | ok sa =>
      refine ⟨sa :: s, ?_, by simp [hlen]⟩
      simp only [adviseLoop, hm, hs]

/-- C3: for every contract-conforming result list and every `max_items`
in [1, 10], the advisor succeeds, its output has length
`min(max_items, |results|)` when at least one result came back, is exactly
the sentinel suggestion when zero results came back, and is never
empty. -/
theorem advise_output_length (results : List Snippet) (max_items : Nat)
    (h1 : 1 ≤ max_items) (h2 : max_items ≤ 10)
    (hok : ∀ it ∈ results, scoreOk it = true) :
    ∃ sugg, advise results max_items = .ok sugg ∧
      sugg ≠ [] ∧
      (results = [] → sugg = [sentinelSuggestion]) ∧
      (results ≠ [] → sugg.length = min max_items results.length) := by
  obtain ⟨s, hs, hlen⟩ := adviseLoop_length (results.take max_items) 0
    (fun it hit => hok it (List.take_subset max_items results hit))
  have hslen : s.length = min max_items results.length := by
    rw [hlen, List.length_take]
  cases results with
  | nil =>
    have hse : s = [] := by
      have h0 := hslen
      simp at h0
      exact h0
    rw [List.take_nil] at hs
    refine ⟨[sentinelSuggestion], ?_, by simp, fun _ => rfl, fun hn => absurd rfl hn⟩
    simp [advise, hs, hse]
  | cons a t =>
    have hpos : 0 < s.length := by
      rw [hslen]
      exact lt_min h1 (Nat.succ_le_succ (Nat.zero_le _))
    have hne : s.isEmpty = false := by
      cases s with
      | nil => simp at hpos
      | cons x xs => rfl
    refine ⟨s, ?_, ?_, by simp, fun _ => hslen⟩
    · simp [advise, hs, hne]
    · intro hnil
      rw [hnil] at hpos
      simp at hpos

/-- Witness for C3: one well-scored result with `max_items = 2` yields a
singleton suggestion list (`min 2 1 = 1`). -/
theorem advise_output_length_witness :
    ∃ sugg,
      advise [{ text := some "evidence", score := some (.jnum (7 / 10)), source := some "who" }]
        2 = .ok sugg ∧ sugg ≠ [] ∧ sugg.length = 1 := by
  obtain ⟨s, ha, hne, _, hlen⟩ := advise_output_length
    [{ text := some "evidence", score := some (.jnum (7 / 10)), source := some "who" }] 2
    (by norm_num) (by norm_num)
    (by
      intro it hit
      simp only [List.mem_singleton] at hit
      rw [hit]
      rfl)
  exact ⟨s, ha, hne, by simpa using hlen (by simp)⟩

/-! ### Store and transcript helper lemmas -/

/-- Looking up a key just stored finds the stored session. -/
theorem lookupS_insertS_self (l : List (String × InterviewSession)) (pid : String)
    (v : InterviewSession) : lookupS (insertS l pid v) pid = some v := by
  induction l with
  | nil => simp [insertS, lookupS]
  | cons p t ih =>
    obtain ⟨k, w⟩ := p
    by_cases h : (k == pid) = true
    · simp [insertS, h, lookupS]
    · simp [insertS, h, lookupS, ih]

/-- Storing under a key leaves exactly one entry for a key previously
stored at most once. -/
theorem countKey_insertS (l : List (String × InterviewSession)) (pid : String)
    (v : InterviewSession) :
    countKey (insertS l pid v) pid = if countKey l pid = 0 then 1 else countKey l pid := by
  induction l with
  | nil => simp [insertS, countKey]
  | cons p t ih =>
    obtain ⟨k, w⟩ := p
    by_cases h : (k == pid) = true
    · simp [insertS, h, countKey, List.filter_cons]
    · simp only [insertS, h, if_false, countKey, List.filter_cons, cond_false,
        Bool.false_eq_true]
      simpa [countKey] using ih

/-- Deleting a key removes it from the store. -/
theorem lookupS_eraseS_self (l : List (String × InterviewSession)) (pid : String) :
    lookupS (eraseS l pid) pid = none := by
  induction l with
  | nil => rfl
  | cons p t ih =>
    obtain ⟨k, w⟩ := p
    by_cases h : (k == pid) = true
    · simpa [eraseS, List.filter_cons, h] using ih
    · simpa [eraseS, List.filter_cons, h, lookupS] using ih

/-- `appendTurns` only ever appends to the transcript. -/
theorem appendTurns_transcript (role : String) (cs : List String) :
    ∀ (s : InterviewSession) (clk : Nat),
      ∃ ext, (appendTurns role s cs clk).1.transcript = s.transcript ++ ext := by
  induction cs with
  | nil => exact fun s clk => ⟨[], by simp [appendTurns]⟩
  | cons c t ih =>
    intro s clk
    obtain ⟨ext, hext⟩ := ih (append_turn s role c clk) (clk + 1)
    refine ⟨⟨role, c, clk⟩ :: ext, ?_⟩
    simp only [appendTurns]
    rw [hext]
    simp [append_turn]

/-- `appendTurns` changes neither the chief complaint, the context nor the
completion flag. -/
theorem appendTurns_fields (role : String) (cs : List String) :
    ∀ (s : InterviewSession) (clk : Nat),
      (appendTurns role s cs clk).1.chief_complaint = s.chief_complaint ∧
      (appendTurns role s cs clk).1.context = s.context ∧
      (appendTurns role s cs clk).1.completed = s.completed := by
  induction cs with
  | nil => exact fun s clk => ⟨rfl, rfl, rfl⟩
  | cons c t ih => exact fun s clk => ih (append_turn s role c clk) (clk + 1)

/-- The store after `start_session`, in closed form. -/
theorem start_session_sessions_eq (st : SessionStore) (pid : String)
    (cc : Option String) (ctx : Option (List (String × String))) :
    (start_session st pid cc ctx).store.sessions =
      insertS st.sessions pid
        ((appendTurns "agent" (start_pick st pid cc ctx)
          (next_questions (start_pick st pid cc ctx).chief_complaint
            (start_pick st pid cc ctx).transcript) st.clock).1) := rfl

/-- The session `start_session` works on is never completed. -/
theorem start_pick_completed (st : SessionStore) (pid : String)
    (cc : Option String) (ctx : Option (List (String × String))) :
    (start_pick st pid cc ctx).completed = false := by
  unfold start_pick
  cases hl : lookupS st.sessions pid with
  | none => rfl
  | some s =>
    by_cases hc : s.completed = false
    · simp [hc]
    · simp [hc, newSession]

/-- With a live stored session, `start_session` picks exactly that
session. -/
theorem start_pick_live (st : SessionStore) (pid : String)
    (cc : Option String) (ctx : Option (List (String × String)))
    (s : InterviewSession)
    (hl : lookupS st.sessions pid = some s) (hc : s.completed = false) :
    start_pick st pid cc ctx = s := by
  unfold start_pick
  rw [hl]
  simp [hc]

/-- After `start_session` the patient has a live (non-completed) session in
the store. -/
theorem start_session_lookup (st : SessionStore) (pid : String)
    (cc : Option String) (ctx : Option (List (String × String))) :
    ∃ s, lookupS (start_session st pid cc ctx).store.sessions pid = some s ∧
      s.completed = false :=
  ⟨(appendTurns "agent" (start_pick st pid cc ctx)
      (next_questions (start_pick st pid cc ctx).chief_complaint
        (start_pick st pid cc ctx).transcript) st.clock).1,
   by rw [start_session_sessions_eq]; exact lookupS_insertS_self _ _ _,
   by rw [(appendTurns_fields _ _ _ _).2.2]; exact start_pick_completed _ _ _ _⟩

/-- `start_session` always stores through `insertS`, so the entry count for
the patient becomes one (from zero) or stays what it was. -/
theorem start_session_count (st : SessionStore) (pid : String)
    (cc : Option String) (ctx : Option (List (String × String))) :
    countKey (start_session st pid cc ctx).store.sessions pid =
      if countKey st.sessions pid = 0 then 1 else countKey st.sessions pid := by
  rw [start_session_sessions_eq]
  exact countKey_insertS _ _ _

/-- Starting over a live session resumes it: the stored session keeps its
chief complaint and context, and its transcript only grows. -/
theorem start_session_reuse (st : SessionStore) (pid : String)
    (cc : Option String) (ctx : Option (List (String × String)))
    (s : InterviewSession)
    (hl : lookupS st.sessions pid = some s) (hc : s.completed = false) :
    ∃ s2, lookupS (start_session st pid cc ctx).store.sessions pid = some s2 ∧
      (∃ ext, s2.transcript = s.transcript ++ ext) ∧
      s2.chief_complaint = s.chief_complaint ∧
      s2.context = s.context := by
  have hpick := start_pick_live st pid cc ctx s hl hc
  refine ⟨(appendTurns "agent" s
      (next_questions s.chief_complaint s.transcript) st.clock).1, ?_,
    appendTurns_transcript _ _ _ _,
    (appendTurns_fields _ _ _ _).1,
    (appendTurns_fields _ _ _ _).2.1⟩
  rw [start_session_sessions_eq, hpick]
  exact lookupS_insertS_self _ _ _

/-- C2: calling `start` twice in a row leaves exactly one session entry for
the patient; the second call resumes the first call's session — its
transcript is preserved as a prefix, and its chief complaint and context
are not overwritten. -/
theorem start_twice_resumes (st : SessionStore) (pid : String)
    (cc₁ cc₂ : Option String) (ctx₁ ctx₂ : Option (List (String × String)))
    (hwf : countKey st.sessions pid ≤ 1) :
    countKey (start_session (start_session st pid cc₁ ctx₁).store pid cc₂
      ctx₂).store.sessions pid = 1 ∧
    ∃ s1 s2, lookupS (start_session st pid cc₁ ctx₁).store.sessions pid = some s1 ∧
      lookupS (start_session (start_session st pid cc₁ ctx₁).store pid cc₂
        ctx₂).store.sessions pid = some s2 ∧
      (∃ ext, s2.transcript = s1.transcript ++ ext) ∧
      s2.chief_complaint = s1.chief_complaint ∧
      s2.context = s1.context := by
  obtain ⟨s1, hl1, hcomp1⟩ := start_session_lookup st pid cc₁ ctx₁
  have hcount1 : countKey (start_session st pid cc₁ ctx₁).store.sessions pid = 1 := by
    rw [start_session_count]
    by_cases h : countKey st.sessions pid = 0
    · simp [h]
    · simp only [h, if_false]
      omega
  constructor
  · rw [start_session_count, hcount1]
    simp
  · obtain ⟨s2, hl2, hext, hcc, hctx⟩ :=
      start_session_reuse (start_session st pid cc₁ ctx₁).store pid cc₂ ctx₂ s1 hl1 hcomp1
    exact ⟨s1, s2, hl1, hl2, hext, hcc, hctx⟩

/-- Witness for C2: two starts on the empty store. -/
theorem start_twice_resumes_witness :
    countKey (start_session (start_session emptyStore "p1" (some "headache") none).store "p1"
      none none).store.sessions "p1" = 1 ∧
    ∃ s1 s2, lookupS (start_session emptyStore "p1" (some "headache")
        none).store.sessions "p1" = some s1 ∧
      lookupS (start_session (start_session emptyStore "p1" (some "headache") none).store "p1"
        none none).store.sessions "p1" = some s2 ∧
      (∃ ext, s2.transcript = s1.transcript ++ ext) ∧
      s2.chief_complaint = s1.chief_complaint ∧
      s2.context = s1.context :=
  start_twice_resumes emptyStore "p1" (some "headache") none none none
    (by simp [countKey, emptyStore])

/-- C6: when the persistence write inside `end` raises, the error
propagates, the session entry survives (with its `completed` flag set), and
a retry of `end` reaches the persistence step again and succeeds. -/
theorem end_persist_failure_is_retriable
    (st : SessionStore) (pid : String) (s : InterviewSession) (e rel : String)
    (persistFail persistRetry : String → String → Except String String)
    (hl : lookupS st.sessions pid = some s)
    (hf : persistFail pid (to_text (markCompleted s)) = .error e)
    (hr : persistRetry pid (to_text (markCompleted s)) = .ok rel) :
    (end_session persistFail st pid).result = .error e ∧
    lookupS (end_session persistFail st pid).store.sessions pid = some (markCompleted s) ∧
    (end_session persistRetry (end_session persistFail st pid).store pid).writes =
      [(pid, to_text (markCompleted s))] ∧
    (end_session persistRetry (end_session persistFail st pid).store pid).result =
      .ok { status := "ok", detail := "transcript_written:" ++ rel, patient_id := pid } := by
  have hstore : (end_session persistFail st pid).store.sessions =
      insertS st.sessions pid (markCompleted s) := by
    simp only [end_session, hl, hf]
  have hlook : lookupS (end_session persistFail st pid).store.sessions pid =
      some (markCompleted s) := by
    rw [hstore]
    exact lookupS_insertS_self _ _ _
  have hidem : markCompleted (markCompleted s) = markCompleted s := rfl
  have h1 : (end_session persistFail st pid).result = .error e := by
    simp only [end_session, hl, hf]
  have h34 :
      (end_session persistRetry (end_session persistFail st pid).store pid).writes =
        [(pid, to_text (markCompleted s))] ∧
      (end_session persistRetry (end_session persistFail st pid).store pid).result =
        .ok { status := "ok", detail := "transcript_written:" ++ rel, patient_id := pid } := by
    generalize hG : (end_session persistFail st pid).store = st1
    rw [hG] at hlook
    constructor
    · simp only [end_session, hlook, hidem, hr]
    · simp only [end_session, hlook, hidem, hr]
  exact ⟨h1, hlook, h34.1, h34.2⟩

/-- Witness for C6: a failing disk write on a store holding one live
session, retried with a working write. -/
theorem end_persist_failure_is_retriable_witness :
    (end_session persistFailAlways sampleStore "p1").result = .error "disk full" ∧
    lookupS (end_session persistFailAlways sampleStore "p1").store.sessions "p1" =
      some (markCompleted sampleSession) ∧
    (end_session persistOk (end_session persistFailAlways sampleStore "p1").store "p1").result =
      .ok { status := "ok", detail := "transcript_written:Interview/p1.txt",
            patient_id := "p1" } := by
  have h := end_persist_failure_is_retriable sampleStore "p1" sampleSession "disk full"
    "Interview/p1.txt" persistFailAlways persistOk rfl rfl rfl
  exact ⟨h.1, h.2.1, h.2.2.2⟩

/-- C7: while a patient has no session entry, both `answer` and `end` fail
with the not-found `ValueError`; a successful `end` removes the entry (so
subsequent `answer`/`end` fail the same way); a new `start` recreates a
session and `answer` succeeds again. -/
theorem session_not_found_until_restart (pid : String) :
    (∀ (st : SessionStore) (ans : String)
        (persist : String → String → Except String String),
      lookupS st.sessions pid = none →
        (submit_answer st pid ans).result = .error "No active session for this patient." ∧
        (end_session persist st pid).result = .error "No session found for this patient.") ∧
    (∀ (st : SessionStore) (persist : String → String → Except String String)
        (res : EndResponse),
      (end_session persist st pid).result = .ok res →
        lookupS (end_session persist st pid).store.sessions pid = none) ∧
    (∀ (st : SessionStore) (cc : Option String) (ctx : Option (List (String × String)))
        (ans : String),
      (∃ s, lookupS (start_session st pid cc ctx).store.sessions pid = some s) ∧
      ∃ r, (submit_answer (start_session st pid cc ctx).store pid ans).result = .ok r) := by
  refine ⟨?_, ?_, ?_⟩
  · intro st ans persist h
    constructor
    · simp [submit_answer, h]
    · simp [end_session, h]
  · intro st persist res h
    cases hl : lookupS st.sessions pid with
    | none => simp [end_session, hl] at h
    | some s =>
      cases hp : persist pid (to_text (markCompleted s)) with
      | error e => simp [end_session, hl, hp] at h
      | ok rel =>
        simp only [end_session, hl, hp]
        exact lookupS_eraseS_self _ _
  · intro st cc ctx ans
    obtain ⟨s, hl, hcomp⟩ := start_session_lookup st pid cc ctx
    refine ⟨⟨s, hl⟩, ?_⟩
    cases hres : (submit_answer (start_session st pid cc ctx).store pid ans).result with
    | ok r => exact ⟨r, rfl⟩
    | error e =>
      simp [submit_answer, hl, hcomp] at hres

/-- Witness for C7: on the empty store both calls fail not-found, and a
start-then-successful-end leaves no entry behind. -/
theorem session_not_found_until_restart_witness :
    (submit_answer emptyStore "p1" "x").result =
      .error "No active session for this patient." ∧
    (end_session persistOk emptyStore "p1").result =
      .error "No session found for this patient." ∧
    lookupS (end_session persistOk (start_session emptyStore "p1" none
      none).store "p1").store.sessions "p1" = none := by
  refine ⟨((session_not_found_until_restart "p1").1 emptyStore "x" persistOk rfl).1,
    ((session_not_found_until_restart "p1").1 emptyStore "x" persistOk rfl).2, ?_⟩
  exact (session_not_found_until_restart "p1").2.1
    (start_session emptyStore "p1" none none).store persistOk
    { status := "ok", detail := "transcript_written:Interview/p1.txt", patient_id := "p1" }
    (by with_unfolding_all rfl)

end Med
